import Mathlib

/-!
Verification of the cpu-time library (Windows backend, src/windows.rs).

The embedding models:
  - std::time::Duration as a pair of natural numbers (u64 seconds,
    u32 sub-second nanoseconds; the std constructors keep nanos below 10^9);
  - FILETIME as its two u32 halves;
  - u64 arithmetic with explicit reduction modulo 2^64 where the source
    performs u64 operations that can wrap;
  - a panicking operation as an Option-returning function (none = panic);
  - the OS accounting API (GetProcessTimes keyed by a process HANDLE,
    GetThreadTimes for the current thread) as an explicit oracle argument,
    so that each query result is passed in rather than performed.
-/

namespace CpuTime

/-- std::time::Duration: whole seconds (u64 in Rust) and sub-second
nanoseconds (u32 in Rust, kept below 10^9 by the std constructors). -/
structure Duration where
  secs : Nat
  nanos : Nat
deriving DecidableEq, Repr

/-- Duration::new: normalizes a (seconds, nanoseconds) pair by carrying
whole seconds out of the nanosecond argument. -/
def Duration.new (secs nanos : Nat) : Duration :=
  ⟨secs + nanos / 1000000000, nanos % 1000000000⟩

/-- Total nanoseconds of a duration, the mathematical value it denotes. -/
def Duration.toNanos (d : Duration) : Nat :=
  d.secs * 1000000000 + d.nanos

/-- The order on Duration (Rust derives it lexicographically:
seconds first, then nanoseconds). -/
def Duration.le (a b : Duration) : Prop :=
  a.secs < b.secs ∨ (a.secs = b.secs ∧ a.nanos ≤ b.nanos)

/-- Strict lexicographic order on Duration. -/
def Duration.lt (a b : Duration) : Prop :=
  a.secs < b.secs ∨ (a.secs = b.secs ∧ a.nanos < b.nanos)

instance (a b : Duration) : Decidable (Duration.le a b) := by
  unfold Duration.le; infer_instance

instance (a b : Duration) : Decidable (Duration.lt a b) := by
  unfold Duration.lt; infer_instance

/-- Duration::checked_sub from the Rust standard library: subtract seconds
with a checked u64 subtraction, then subtract nanoseconds, borrowing one
second when the right-hand nanoseconds are larger.  The panicking Sub
implementation used by the library is checked_sub followed by expect, so
none models the panic of the subtraction operator. -/
def Duration.checkedSub (a rhs : Duration) : Option Duration :=
  if rhs.secs ≤ a.secs then
    if rhs.nanos ≤ a.nanos then
      some ⟨a.secs - rhs.secs, a.nanos - rhs.nanos⟩
    else if 1 ≤ a.secs - rhs.secs then
      some ⟨a.secs - rhs.secs - 1, a.nanos + 1000000000 - rhs.nanos⟩
    else
      none
  else
    none

/-- winapi FILETIME: two u32 halves of a 64-bit count of 100ns ticks. -/
structure FILETIME where
  dwLowDateTime : Nat
  dwHighDateTime : Nat
deriving DecidableEq, Repr

/-- The u64 tick count a FILETIME denotes, exactly as the source builds it:
(high as u64) shifted left by 32, plus low, as u64 operations. -/
def FILETIME.ticks (ft : FILETIME) : Nat :=
  ((ft.dwHighDateTime <<< 32) % 2 ^ 64 + ft.dwLowDateTime) % 2 ^ 64

/-- to_duration from src/windows.rs: sum kernel and user 100ns tick counts
with u64 (wrapping) arithmetic and build a Duration whose seconds are the
tick sum divided by 10^7 and whose nanosecond argument is the tick sum
times 100 (a u64 multiplication, reduced mod 2^64), reduced mod 10^9 and
cast to u32 (reduced mod 2^32). -/
def to_duration (kernel_time user_time : FILETIME) : Duration :=
  let kns100 := kernel_time.ticks
  let uns100 := user_time.ticks
  Duration.new
    (((kns100 + uns100) % 2 ^ 64) / 10000000)
    (((((kns100 + uns100) % 2 ^ 64) * 100) % 2 ^ 64) % 1000000000 % 2 ^ 32)

/-- The two u64 operations inside to_duration stay below 2^64, i.e. the
tick addition and the multiplication by 100 do not wrap. -/
def ticksNoOverflow (kernel_time user_time : FILETIME) : Prop :=
  kernel_time.ticks + user_time.ticks < 2 ^ 64 ∧
  (kernel_time.ticks + user_time.ticks) * 100 < 2 ^ 64

instance (kt ut : FILETIME) : Decidable (ticksNoOverflow kt ut) := by
  unfold ticksNoOverflow; infer_instance

/-- Outcome of one GetProcessTimes / GetThreadTimes call: the BOOL return
value (false models the 0 return, i.e. failure) and the two out-parameters
the caller reads, kernel time and user time. -/
structure OsResult where
  ok : Bool
  kernel : FILETIME
  user : FILETIME

/-- CPU time used by the whole process: the captured cumulative duration
and the process HANDLE used to query again later. -/
structure ProcessTime where
  duration : Duration
  process : Nat
deriving DecidableEq, Repr

/-- CPU time used by the current thread: the captured cumulative duration.
The PhantomData marker field of the Rust tuple struct carries no data. -/
structure ThreadTime where
  duration : Duration
deriving DecidableEq, Repr

/-- GetCurrentProcess returns the pseudo handle (HANDLE)-1, i.e. the
all-ones u64 value. -/
def currentProcess : Nat := 2 ^ 64 - 1

/-- ProcessTime::now: query GetProcessTimes on the current process pseudo
handle; on failure the source panics (modelled by none), on success store
the converted duration together with the handle. -/
def ProcessTime.now (os : Nat → OsResult) : Option ProcessTime :=
  let process := currentProcess
  let r := os process
  if r.ok then
    some ⟨to_duration r.kernel r.user, process⟩
  else
    none

/-- ProcessTime::now_for: open a handle to the given process id via
OpenProcess (modelled by the openProcess oracle), query GetProcessTimes on
that handle; panic (none) on failure, otherwise store the converted
duration with the opened handle. -/
def ProcessTime.now_for (id : Nat) (openProcess : Nat → Nat)
    (os : Nat → OsResult) : Option ProcessTime :=
  let process := openProcess id
  let r := os process
  if r.ok then
    some ⟨to_duration r.kernel r.user, process⟩
  else
    none

/-- ProcessTime::elapsed: query GetProcessTimes on the stored handle;
panic (none) on failure, otherwise return the fresh converted duration
minus the stored one with the panicking Duration subtraction. -/
def ProcessTime.elapsed (p : ProcessTime) (os : Nat → OsResult) :
    Option Duration :=
  let r := os p.process
  if r.ok then
    Duration.checkedSub (to_duration r.kernel r.user) p.duration
  else
    none

/-- ProcessTime::duration_since: stored duration minus the argument's
stored duration, with the panicking Duration subtraction. -/
def ProcessTime.duration_since (p timestamp : ProcessTime) :
    Option Duration :=
  Duration.checkedSub p.duration timestamp.duration

/-- ThreadTime::now: query GetThreadTimes on the current thread; panic
(none) on failure, otherwise store the converted duration. -/
def ThreadTime.now (r : OsResult) : Option ThreadTime :=
  if r.ok then
    some ⟨to_duration r.kernel r.user⟩
  else
    none

/-- ThreadTime::duration_since: stored duration minus the argument's
stored duration, with the panicking Duration subtraction. -/
def ThreadTime.duration_since (t timestamp : ThreadTime) :
    Option Duration :=
  Duration.checkedSub t.duration timestamp.duration

/-- ThreadTime::elapsed: ThreadTime::now().duration_since(*self); the
single OS query performed by the inner now() call is passed in. -/
def ThreadTime.elapsed (t : ThreadTime) (r : OsResult) : Option Duration :=
  match ThreadTime.now r with
  | some n => ThreadTime.duration_since n t
  | none => none

/-! ## Helper lemmas shared by the claim theorems -/

/-- checked_sub is exact: when the right-hand duration is well formed and
lexicographically no larger than the left-hand one, the subtraction
succeeds and the result's total nanoseconds are the exact difference. -/
theorem Duration.checkedSub_exact (a b : Duration)
    (hb : b.nanos < 1000000000) (hle : Duration.le b a) :
    ∃ d : Duration, Duration.checkedSub a b = some d ∧
      d.toNanos + b.toNanos = a.toNanos := by
  unfold Duration.checkedSub
  rcases hle with h | ⟨h₁, h₂⟩
  · by_cases hn : b.nanos ≤ a.nanos
    · refine ⟨⟨a.secs - b.secs, a.nanos - b.nanos⟩, by simp [Nat.le_of_lt h, hn], ?_⟩
      unfold Duration.toNanos
      simp only
      omega
    · refine ⟨⟨a.secs - b.secs - 1, a.nanos + 1000000000 - b.nanos⟩, ?_, ?_⟩
      · simp [Nat.le_of_lt h, hn]
        omega
      · unfold Duration.toNanos
        simp only
        omega
  · refine ⟨⟨a.secs - b.secs, a.nanos - b.nanos⟩, by simp [h₁.le, h₂], ?_⟩
    unfold Duration.toNanos
    simp only
    omega

/-- checked_sub fails (the panicking Sub panics) exactly when the
left-hand duration is lexicographically smaller than the right-hand. -/
theorem Duration.checkedSub_none_iff (a b : Duration) :
    Duration.checkedSub a b = none ↔ Duration.lt a b := by
  unfold Duration.checkedSub Duration.lt
  split_ifs with h₁ h₂ h₃ <;> simp <;> omega

/-- When the tick sum times 100 fits in a u64, no wrap occurs in
to_duration and the result is exactly the mathematical normalization:
seconds are the tick sum over 10^7 and nanoseconds are the remainder
times 100. -/
theorem to_duration_formula (kt ut : FILETIME)
    (hmul : (kt.ticks + ut.ticks) * 100 < 2 ^ 64) :
    (to_duration kt ut).secs = (kt.ticks + ut.ticks) / 10000000 ∧
    (to_duration kt ut).nanos = ((kt.ticks + ut.ticks) % 10000000) * 100 := by
  have hsum : kt.ticks + ut.ticks < 2 ^ 64 := by
    calc kt.ticks + ut.ticks ≤ (kt.ticks + ut.ticks) * 100 := by omega
    _ < 2 ^ 64 := hmul
  unfold to_duration
  simp only [Nat.mod_eq_of_lt hsum, Nat.mod_eq_of_lt hmul]
  have hnanos : (kt.ticks + ut.ticks) * 100 % 1000000000
      = ((kt.ticks + ut.ticks) % 10000000) * 100 := by
    have : (1000000000 : Nat) = 10000000 * 100 := by norm_num
    rw [this, Nat.mul_mod_mul_right]
  have hlt : ((kt.ticks + ut.ticks) % 10000000) * 100 < 1000000000 := by
    have := Nat.mod_lt (kt.ticks + ut.ticks) (y := 10000000) (by norm_num)
    omega
  rw [hnanos, Nat.mod_eq_of_lt (lt_of_lt_of_le hlt (by norm_num))]
  unfold Duration.new
  constructor
  · simp only
    omega
  · simp only
    omega

/-- The nanosecond field produced by to_duration is always a valid
sub-second count, below 10^9. -/
theorem to_duration_nanos_lt (kt ut : FILETIME) :
    (to_duration kt ut).nanos < 1000000000 := by
  unfold to_duration Duration.new
  simp only
  omega

/-! ## Claim C1 -/

/-- Claim C1 as stated is false: the claimed nanosecond formula fails at
kernel ticks 2^63 (high half 2^31, low half 0) and user ticks 0, because
the source multiplies the tick sum by 100 in u64 arithmetic, which wraps
there to 0, while the claimed value is (2^63 mod 10^7) * 100 =
477580800. -/
theorem c1_counterexample :
    ¬ ((to_duration ⟨0, 2147483648⟩ ⟨0, 0⟩).secs
          = (FILETIME.ticks ⟨0, 2147483648⟩ + FILETIME.ticks ⟨0, 0⟩) / 10000000 ∧
       (to_duration ⟨0, 2147483648⟩ ⟨0, 0⟩).nanos
          = ((FILETIME.ticks ⟨0, 2147483648⟩ + FILETIME.ticks ⟨0, 0⟩) % 10000000) * 100) := by
  decide

/-- Claim C1 (amended): provided the tick sum times 100 fits in a u64
(beyond that bound the u64 multiplication by 100 in the source wraps),
the conversion returns the duration whose whole seconds are
(kernel + user) / 10^7 and whose sub-second nanoseconds are
((kernel + user) mod 10^7) * 100; in particular every pair summing to
exactly 10^7 ticks converts to exactly 1.000000000 seconds. -/
theorem c1_to_duration_exact (kt ut : FILETIME)
    (hmul : (kt.ticks + ut.ticks) * 100 < 2 ^ 64) :
    (to_duration kt ut).secs = (kt.ticks + ut.ticks) / 10000000 ∧
    (to_duration kt ut).nanos = ((kt.ticks + ut.ticks) % 10000000) * 100 ∧
    (kt.ticks + ut.ticks = 10000000 → to_duration kt ut = ⟨1, 0⟩) := by
  obtain ⟨hs, hn⟩ := to_duration_formula kt ut hmul
  refine ⟨hs, hn, fun h => ?_⟩
  have h1 : (to_duration kt ut).secs = 1 := by rw [hs, h]
  have h2 : (to_duration kt ut).nanos = 0 := by rw [hn, h]
  calc to_duration kt ut
      = ⟨(to_duration kt ut).secs, (to_duration kt ut).nanos⟩ := rfl
    _ = ⟨1, 0⟩ := by rw [h1, h2]

/-- Witness for C1: at kernel ticks 10^7 and user ticks 0 the overflow
hypothesis holds and the conversion is exactly one second. -/
theorem c1_witness :
    (to_duration ⟨10000000, 0⟩ ⟨0, 0⟩).secs
        = (FILETIME.ticks ⟨10000000, 0⟩ + FILETIME.ticks ⟨0, 0⟩) / 10000000 ∧
    (to_duration ⟨10000000, 0⟩ ⟨0, 0⟩).nanos
        = ((FILETIME.ticks ⟨10000000, 0⟩ + FILETIME.ticks ⟨0, 0⟩) % 10000000) * 100 ∧
    (FILETIME.ticks ⟨10000000, 0⟩ + FILETIME.ticks ⟨0, 0⟩ = 10000000 →
      to_duration ⟨10000000, 0⟩ ⟨0, 0⟩ = ⟨1, 0⟩) :=
  c1_to_duration_exact ⟨10000000, 0⟩ ⟨0, 0⟩ (by decide)

/-! ## Claim C6 -/

/-- A FILETIME whose 64-bit tick count is the largest u64 value. -/
def ftMax : FILETIME := ⟨4294967295, 4294967295⟩

/-- Claim C6 as stated is false: at the pair (u64::MAX, u64::MAX) the tick
addition in to_duration overflows a u64, and the wrapped seconds differ
from the exact quotient of the true tick sum. -/
theorem c6_counterexample :
    ¬ ticksNoOverflow ftMax ftMax ∧
    (to_duration ftMax ftMax).secs ≠ (ftMax.ticks + ftMax.ticks) / 10000000 := by
  decide

/-- Claim C6 (amended): the conversion is a total function whose
nanosecond field is always a valid sub-second count; and whenever the
tick sum is at most (2^64 - 1) / 100 — which covers centuries of
accumulated CPU time at 100ns per tick — neither u64 operation overflows
and the result is the exact normalization.  Beyond that bound the u64
arithmetic wraps. -/
theorem c6_total_no_overflow :
    (∀ kt ut : FILETIME, (to_duration kt ut).nanos < 1000000000) ∧
    (∀ kt ut : FILETIME, kt.ticks + ut.ticks ≤ 184467440737095516 →
      ticksNoOverflow kt ut ∧
      (to_duration kt ut).secs = (kt.ticks + ut.ticks) / 10000000 ∧
      (to_duration kt ut).nanos = ((kt.ticks + ut.ticks) % 10000000) * 100) := by
  refine ⟨to_duration_nanos_lt, fun kt ut hsum => ?_⟩
  have hmul : (kt.ticks + ut.ticks) * 100 < 2 ^ 64 := by omega
  obtain ⟨hs, hn⟩ := to_duration_formula kt ut hmul
  refine ⟨?_, hs, hn⟩
  unfold ticksNoOverflow
  omega

/-- Witness for C6: a concrete in-range pair satisfies the bound, does
not overflow, and converts exactly. -/
theorem c6_witness :
    ticksNoOverflow ⟨500, 3⟩ ⟨1000, 0⟩ ∧
    (to_duration ⟨500, 3⟩ ⟨1000, 0⟩).secs
        = (FILETIME.ticks ⟨500, 3⟩ + FILETIME.ticks ⟨1000, 0⟩) / 10000000 ∧
    (to_duration ⟨500, 3⟩ ⟨1000, 0⟩).nanos
        = ((FILETIME.ticks ⟨500, 3⟩ + FILETIME.ticks ⟨1000, 0⟩) % 10000000) * 100 :=
  c6_total_no_overflow.2 ⟨500, 3⟩ ⟨1000, 0⟩ (by decide)

/-! ## Claim C2 -/

/-- Claim C2: for well-formed captured durations, when the later
timestamp's captured duration is at least the earlier one's,
duration_since succeeds — for ProcessTime and ThreadTime alike — and
returns exactly the difference of the two captured durations; the result
is a Duration, hence non-negative. -/
theorem c2_duration_since_exact
    (a b : ProcessTime) (ta tb : ThreadTime)
    (hbn : b.duration.nanos < 1000000000)
    (hab : Duration.le b.duration a.duration)
    (htn : tb.duration.nanos < 1000000000)
    (htab : Duration.le tb.duration ta.duration) :
    (∃ d : Duration, a.duration_since b = some d ∧
      d.toNanos + b.duration.toNanos = a.duration.toNanos) ∧
    (∃ d : Duration, ta.duration_since tb = some d ∧
      d.toNanos + tb.duration.toNanos = ta.duration.toNanos) :=
  ⟨Duration.checkedSub_exact a.duration b.duration hbn hab,
   Duration.checkedSub_exact ta.duration tb.duration htn htab⟩

/-- Witness for C2: concrete later/earlier pairs, one exercising the
nanosecond borrow, subtract exactly. -/
theorem c2_witness :
    (∃ d : Duration,
        ProcessTime.duration_since ⟨⟨5, 100⟩, 7⟩ ⟨⟨3, 900⟩, 7⟩ = some d ∧
        d.toNanos + Duration.toNanos ⟨3, 900⟩ = Duration.toNanos ⟨5, 100⟩) ∧
    (∃ d : Duration,
        ThreadTime.duration_since ⟨⟨2, 0⟩⟩ ⟨⟨1, 999999999⟩⟩ = some d ∧
        d.toNanos + Duration.toNanos ⟨1, 999999999⟩ = Duration.toNanos ⟨2, 0⟩) :=
  c2_duration_since_exact ⟨⟨5, 100⟩, 7⟩ ⟨⟨3, 900⟩, 7⟩ ⟨⟨2, 0⟩⟩ ⟨⟨1, 999999999⟩⟩
    (by decide) (by decide) (by decide) (by decide)

/-! ## Claim C3 -/

/-- Claim C3: elapsed issues a fresh GetProcessTimes query on the stored
process handle; if that query succeeds and the freshly converted duration
is at least the stored captured one (the counter being monotonically
non-decreasing), elapsed returns exactly the fresh value minus the stored
value — a Duration, hence non-negative. -/
theorem c3_elapsed_fresh_minus_stored
    (p : ProcessTime) (os : Nat → OsResult)
    (hok : (os p.process).ok = true)
    (hn : p.duration.nanos < 1000000000)
    (hle : Duration.le p.duration
      (to_duration (os p.process).kernel (os p.process).user)) :
    ∃ d : Duration, p.elapsed os = some d ∧
      d.toNanos + p.duration.toNanos
        = (to_duration (os p.process).kernel (os p.process).user).toNanos := by
  have hstep : p.elapsed os
      = Duration.checkedSub
          (to_duration (os p.process).kernel (os p.process).user) p.duration := by
    unfold ProcessTime.elapsed
    simp [hok]
  rw [hstep]
  exact Duration.checkedSub_exact _ _ hn hle

/-- Witness for C3: a stored zero duration, an OS world answering the
stored handle with 2 * 10^7 ticks; elapsed returns exactly that. -/
theorem c3_witness :
    ∃ d : Duration,
      ProcessTime.elapsed ⟨⟨0, 0⟩, 5⟩
          (fun _ => ⟨true, ⟨20000000, 0⟩, ⟨0, 0⟩⟩) = some d ∧
      d.toNanos + Duration.toNanos ⟨0, 0⟩
        = (to_duration ⟨20000000, 0⟩ ⟨0, 0⟩).toNanos :=
  c3_elapsed_fresh_minus_stored ⟨⟨0, 0⟩, 5⟩
    (fun _ => ⟨true, ⟨20000000, 0⟩, ⟨0, 0⟩⟩) (by decide) (by decide) (by decide)

/-! ## Claim C4 -/

/-- A stored process timestamp of five captured seconds, handle 1. -/
def pEx : ProcessTime := ⟨⟨5, 0⟩, 1⟩

/-- An OS world whose every GetProcessTimes query succeeds with zero
kernel and user time. -/
def osEx : Nat → OsResult := fun _ => ⟨true, ⟨0, 0⟩, ⟨0, 0⟩⟩

/-- Claim C4 as stated is false for elapsed: in this world the OS query
succeeds, yet elapsed panics (none), because the fresh duration 0 is
smaller than the stored 5 seconds and the Duration subtraction
underflows; so panicking is not equivalent to OS-query failure. -/
theorem c4_counterexample :
    ProcessTime.elapsed pEx osEx = none ∧ (osEx pEx.process).ok = true := by
  decide

/-- Claim C4 (amended): now, now_for and the thread now panic exactly
when their OS query fails, with no recoverable error value; elapsed
panics exactly when its OS query fails or the fresh duration is
lexicographically below the stored one (subtraction underflow).  Each
operation issues a single query with no retry. -/
theorem c4_panic_iff (os : Nat → OsResult) (openProcess : Nat → Nat)
    (id : Nat) (r : OsResult) (p : ProcessTime) :
    (ProcessTime.now os = none ↔ (os currentProcess).ok = false) ∧
    (ProcessTime.now_for id openProcess os = none
        ↔ (os (openProcess id)).ok = false) ∧
    (ThreadTime.now r = none ↔ r.ok = false) ∧
    (ProcessTime.elapsed p os = none
        ↔ ((os p.process).ok = false ∨
            Duration.lt
              (to_duration (os p.process).kernel (os p.process).user)
              p.duration)) := by
  refine ⟨?_, ?_, ?_, ?_⟩
  · unfold ProcessTime.now
    cases h : (os currentProcess).ok <;> simp [h]
  · unfold ProcessTime.now_for
    cases h : (os (openProcess id)).ok <;> simp [h]
  · unfold ThreadTime.now
    cases h : r.ok <;> simp [h]
  · unfold ProcessTime.elapsed
    cases h : (os p.process).ok <;> simp [h, Duration.checkedSub_none_iff]

/-! ## Claim C7 -/

/-- Claim C7: when the construction-time query succeeds, now captures a
timestamp whose duration field is the converted value of that query, and
the duration accessor — a function of the timestamp alone — returns that
captured value identically in every later OS world, including worlds
where every query fails because the process has exited; two calls
therefore return identical values and no query is performed. -/
theorem c7_duration_pure (os : Nat → OsResult)
    (hok : (os currentProcess).ok = true) :
    ∃ p : ProcessTime, ProcessTime.now os = some p ∧
      ∀ os2 : Nat → OsResult,
        p.duration
          = to_duration (os currentProcess).kernel (os currentProcess).user := by
  refine ⟨⟨to_duration (os currentProcess).kernel (os currentProcess).user,
    currentProcess⟩, ?_, fun os2 => rfl⟩
  unfold ProcessTime.now
  simp [hok]

/-- An OS world answering every query successfully with 300 kernel ticks
and 700 user ticks. -/
def osOk : Nat → OsResult := fun _ => ⟨true, ⟨300, 0⟩, ⟨700, 0⟩⟩

/-- Witness for C7 in a concrete all-success world. -/
theorem c7_witness :
    ∃ p : ProcessTime, ProcessTime.now osOk = some p ∧
      ∀ os2 : Nat → OsResult,
        p.duration
          = to_duration (osOk currentProcess).kernel (osOk currentProcess).user :=
  c7_duration_pure osOk (by decide)

/-! ## Claim C8 -/

/-- One elapsed call in state-passing form: the source takes the
receiver by shared borrow, so the call returns its result together with
the receiver it leaves behind, which is the receiver itself. -/
def ProcessTime.elapsedCall (p : ProcessTime) (os : Nat → OsResult) :
    Option Duration × ProcessTime :=
  (ProcessTime.elapsed p os, p)

/-- A sequence of elapsed calls on one timestamp, threading the receiver
state left by each call into the next. -/
def ProcessTime.elapsedCalls :
    ProcessTime → List (Nat → OsResult) → List (Option Duration) × ProcessTime
  | p, [] => ([], p)
  | p, os :: rest =>
    let c := ProcessTime.elapsedCall p os
    let d := ProcessTime.elapsedCalls c.2 rest
    (c.1 :: d.1, d.2)

/-- Claim C8: any number of elapsed calls leaves the timestamp unchanged
— same captured duration, same process handle — and every call computes
from the original capture: the sequence of results equals the per-query
elapsed values of the original timestamp. -/
theorem c8_elapsed_frame (p : ProcessTime) (oss : List (Nat → OsResult)) :
    (ProcessTime.elapsedCalls p oss).2 = p ∧
    (ProcessTime.elapsedCalls p oss).2.duration = p.duration ∧
    (ProcessTime.elapsedCalls p oss).2.process = p.process ∧
    (ProcessTime.elapsedCalls p oss).1
      = oss.map (fun os => ProcessTime.elapsed p os) := by
  induction oss with
  | nil => simp [ProcessTime.elapsedCalls]
  | cons os rest ih =>
    obtain ⟨h1, _, _, h4⟩ := ih
    refine ⟨?_, ?_, ?_, ?_⟩ <;>
      simp [ProcessTime.elapsedCalls, ProcessTime.elapsedCall, h1, h4]

/-! ## Claim C9 -/

/-- Claim C9: given the same fresh OS query outcome, elapsed on a thread
timestamp is observably equal to now() followed by duration_since of
that timestamp. -/
theorem c9_elapsed_eq_now_duration_since (t : ThreadTime) (r : OsResult) :
    ThreadTime.elapsed t r
      = (ThreadTime.now r).bind (fun n => ThreadTime.duration_since n t) := by
  unfold ThreadTime.elapsed
  cases h : ThreadTime.now r <;> simp [h]

/-! ## Claim C10 -/

/-- Claim C10: the public subtractions are not total: when the argument's
captured duration strictly exceeds the receiver's, duration_since — for
process and thread timestamps alike — returns none, the modelled panic;
and when the fresh query converts strictly below the stored duration,
elapsed likewise returns none.  No negative or clamped value is ever
produced. -/
theorem c10_sub_underflow_panics :
    (∀ a b : ProcessTime, Duration.lt a.duration b.duration →
      a.duration_since b = none) ∧
    (∀ ta tb : ThreadTime, Duration.lt ta.duration tb.duration →
      ta.duration_since tb = none) ∧
    (∀ (p : ProcessTime) (os : Nat → OsResult), (os p.process).ok = true →
      Duration.lt (to_duration (os p.process).kernel (os p.process).user)
        p.duration →
      p.elapsed os = none) := by
  refine ⟨?_, ?_, ?_⟩
  · intro a b h
    exact (Duration.checkedSub_none_iff _ _).mpr h
  · intro ta tb h
    exact (Duration.checkedSub_none_iff _ _).mpr h
  · intro p os hok h
    unfold ProcessTime.elapsed
    simp only [hok, if_true]
    exact (Duration.checkedSub_none_iff _ _).mpr h

/-- Witness for C10: each subtraction panics at a concrete underflowing
input. -/
theorem c10_witness :
    ProcessTime.duration_since ⟨⟨1, 0⟩, 9⟩ ⟨⟨2, 0⟩, 9⟩ = none ∧
    ThreadTime.duration_since ⟨⟨0, 5⟩⟩ ⟨⟨0, 6⟩⟩ = none ∧
    ProcessTime.elapsed ⟨⟨4, 0⟩, 2⟩ (fun _ => ⟨true, ⟨0, 0⟩, ⟨0, 0⟩⟩) = none :=
  ⟨c10_sub_underflow_panics.1 ⟨⟨1, 0⟩, 9⟩ ⟨⟨2, 0⟩, 9⟩ (by decide),
   c10_sub_underflow_panics.2.1 ⟨⟨0, 5⟩⟩ ⟨⟨0, 6⟩⟩ (by decide),
   c10_sub_underflow_panics.2.2 ⟨⟨4, 0⟩, 2⟩ (fun _ => ⟨true, ⟨0, 0⟩, ⟨0, 0⟩⟩)
     rfl (by decide)⟩

end CpuTime
